import Mathlib

/-!
Verification of the `TemplateMap` overlay component of the mapper repository
(`src/src/templates/template_map.cpp`), as a shallow embedding in Lean 4.

The embedding follows the C++ source line by line:
* `loadTemplateFileImpl` (lines 90-122): recursion guard, import, template
  stripping, error reporting;
* `unloadTemplateFileImpl` (lines 138-141) and `getTemplateExtent`
  (lines 185-192);
* `calculateTransformation` (lines 228-254): 3 pass points and the similarity
  fit;
* the scaling resolution of `drawTemplate` (lines 164-179).

Collaborator code that is declared or called here but whose definition is not
part of the repository slice (the file-format importer, `Map::calculateExtent`,
`Georeferencing::toMapCoordF`, `Util::mmToPixelPhysical`,
`PassPointList::estimateNonIsometricSimilarityTransform`) is modelled from the
specification, as abstract parameters or as definitions marked
`Modelled from the spec:`.

Machine floating-point (`double`, `qreal`) is modelled by `ℚ`: all the
arithmetic performed by the embedded code paths is exact.
-/

namespace OpenOrienteering

/-- A 2D coordinate with floating-point components (`MapCoordF`), modelled
over `ℚ`. -/
structure MapCoordF where
  x : ℚ
  y : ℚ
  deriving DecidableEq, Repr

instance : Add MapCoordF where
  add p q := ⟨p.x + q.x, p.y + q.y⟩

/-- A rectangle (`QRectF`): position and size. A default-constructed `QRectF`
is the empty (null) rectangle `⟨0, 0, 0, 0⟩`. -/
structure QRectF where
  x : ℚ
  y : ℚ
  w : ℚ
  h : ℚ
  deriving DecidableEq, Repr

/-- The default-constructed, empty `QRectF`. -/
def QRectF.empty : QRectF := ⟨0, 0, 0, 0⟩

/-- A template contained in a map document.  Its own nested template list is
kept so that "one level of de-nesting" is observable; the payload is opaque. -/
structure MapTemplate where
  payload : Nat
  nested : List Nat
  deriving DecidableEq, Repr

/-- The part of a `Map` document that the embedded code paths touch: its list
of contained templates and an opaque content payload (standing for all the
drawable content that `deleteTemplate` does not touch). -/
structure Map where
  templates : List MapTemplate
  content : Nat
  deriving DecidableEq, Repr

/-- `Map::deleteTemplate(i)`: removes the template at index `i`. -/
def Map.deleteTemplate (m : Map) (i : Nat) : Map :=
  { m with templates := m.templates.eraseIdx i }

/-- The loop `for (int i = getNumTemplates()-1; i >= 0; i--) deleteTemplate(i)`
of `loadTemplateFileImpl` (template_map.cpp lines 106-109), with the loop
counter as explicit fuel: `deleteTemplatesLoop m k` runs iterations
`i = k-1, …, 0`.  The code enters it with `k = m.templates.length`. -/
def deleteTemplatesLoop (m : Map) : Nat → Map
  | 0 => m
  | i + 1 => deleteTemplatesLoop (m.deleteTemplate i) i

/-- The importer object returned by `FileFormats.makeImporter`, as the spec
describes it: `doImport` either succeeds or fails, and a list of warning
strings is retrievable afterwards.  (The importer implementation is not part
of the repository slice; the spec gives it no other observable behaviour and
no exception channel.) -/
structure Importer where
  importOk : Bool
  warnings : List String
  deriving DecidableEq, Repr

/-- The environment a single `loadTemplateFileImpl` call runs against:
the importer `FileFormats.makeImporter` yields for the path (`none` when no
format matches), and the document content a successful `doImport` produces. -/
structure LoadEnv where
  importerOpt : Option Importer
  imported : Map
  deriving DecidableEq, Repr

/-- The per-instance state of a `TemplateMap` that `loadTemplateFileImpl`
reads and writes: the template path, the loaded document (`template_map`,
`none` when unloaded), and the error string (`Template::setErrorString`). -/
structure TemplateMapState where
  template_path : String
  template_map : Option Map
  error_string : Option String
  deriving DecidableEq, Repr

/-- Everything observable after a `loadTemplateFileImpl` call: the returned
Bool, the process-wide recursion guard `locked_maps`, the updated instance
state, whether `doImport` ran, and whether the call performed the
out-of-bounds `warnings().back()` read on an empty warning list. -/
structure LoadResult where
  ret : Bool
  locked_maps : List String
  state : TemplateMapState
  importerInvoked : Bool
  oobRead : Bool
  deriving DecidableEq, Repr

/-- `QStringList::removeAll(s)`: removes every occurrence of `s`. -/
def removeAll (l : List String) (s : String) : List String :=
  l.filter (fun t => t ≠ s)

/-- The generic cannot-load message of template_map.cpp line 118. -/
def cannotLoadMessage : String := "Cannot load map file, aborting."

/-- `importer && importer->doImport()` (template_map.cpp line 99). -/
def newTemplateValid (env : LoadEnv) : Bool :=
  match env.importerOpt with
  | none => false
  | some imp => imp.importOk

/-- `TemplateMap::loadTemplateFileImpl` (template_map.cpp lines 90-122).

Line by line: if `locked_maps` contains the path, return `true` (lines 93-94);
otherwise make the importer, append the path to `locked_maps` (line 98), let
`new_template_valid = importer && importer->doImport()` (line 99), remove the
path again (line 100); on success delete all of the new document's templates
and store it (lines 102-112); on failure, if `configuring`, record the last
importer warning, or a generic message when there is no importer
(lines 113-119); return `new_template_valid` (line 121).

`warnings().back()` on an empty vector is undefined behaviour in C++; the
embedding records the last element when it exists and raises the `oobRead`
flag when the list is empty. -/
def loadTemplateFileImpl (configuring : Bool) (st : TemplateMapState)
    (locked : List String) (env : LoadEnv) : LoadResult :=
  if locked.contains st.template_path then
    { ret := true
      locked_maps := locked
      state := st
      importerInvoked := false
      oobRead := false }
  else
    let locked1 := locked ++ [st.template_path]
    let new_template_valid := newTemplateValid env
    let locked2 := removeAll locked1 st.template_path
    if new_template_valid then
      let new_map := deleteTemplatesLoop env.imported env.imported.templates.length
      { ret := true
        locked_maps := locked2
        state := { st with template_map := some new_map }
        importerInvoked := env.importerOpt.isSome
        oobRead := false }
    else if configuring then
      match env.importerOpt with
      | some imp =>
          { ret := false
            locked_maps := locked2
            state := { st with error_string := imp.warnings.getLast? }
            importerInvoked := true
            oobRead := imp.warnings.isEmpty }
      | none =>
          { ret := false
            locked_maps := locked2
            state := { st with error_string := some cannotLoadMessage }
            importerInvoked := false
            oobRead := false }
    else
      { ret := false
        locked_maps := locked2
        state := st
        importerInvoked := env.importerOpt.isSome
        oobRead := false }

/-- `TemplateMap::unloadTemplateFileImpl` (template_map.cpp lines 138-141):
`template_map.reset()`. -/
def unloadTemplateFileImpl (st : TemplateMapState) : TemplateMapState :=
  { st with template_map := none }

/-- `TemplateMap::getTemplateExtent` (template_map.cpp lines 185-192).
`calculateExtent` is a `Map` member outside the repository slice; it is passed
in as the abstract content bounding box of the document, in
foreign-document coordinates. -/
def getTemplateExtent (calculateExtent : Map → QRectF)
    (template_map : Option Map) : QRectF :=
  match template_map with
  | none => QRectF.empty
  | some m => calculateExtent m

/-- A pass point (`PassPoint`): a (source, destination) coordinate pair used
to estimate the coordinate transform. -/
structure PassPoint where
  src_coords : MapCoordF
  dest_coords : MapCoordF
  deriving DecidableEq, Repr

/-- A 2D similarity transform — uniform scale, rotation and translation, no
shear — written as `p ↦ (a·x − b·y + dx, b·x + a·y + dy)`, i.e. the complex
map `z ↦ (a + b·i)·z + (dx + dy·i)`. -/
structure SimilarityTransform where
  a : ℚ
  b : ℚ
  dx : ℚ
  dy : ℚ
  deriving DecidableEq, Repr

/-- Apply a similarity transform to a coordinate. -/
def SimilarityTransform.apply (t : SimilarityTransform) (p : MapCoordF) : MapCoordF :=
  ⟨t.a * p.x - t.b * p.y + t.dx, t.b * p.x + t.a * p.y + t.dy⟩

/-- The total squared deviation of the 3 source points from their centroid,
`Σ |zᵢ − z̄|²`: the denominator of the least-squares similarity fit, zero
exactly when the three source points coincide. -/
def srcSpread (p0 p1 p2 : PassPoint) : ℚ :=
  let sx := (p0.src_coords.x + p1.src_coords.x + p2.src_coords.x) / 3
  let sy := (p0.src_coords.y + p1.src_coords.y + p2.src_coords.y) / 3
  (p0.src_coords.x - sx) ^ 2 + (p0.src_coords.y - sy) ^ 2 +
    (p1.src_coords.x - sx) ^ 2 + (p1.src_coords.y - sy) ^ 2 +
    (p2.src_coords.x - sx) ^ 2 + (p2.src_coords.y - sy) ^ 2

/-- Modelled from the spec: `PassPointList::estimateNonIsometricSimilarityTransform`
(declared in util/transformation.h; its definition is not part of the
repository slice).  The spec describes it as fitting "a similarity transform
(uniform scale + rotation + translation, no shear) through the 3 pairs using a
least-squares or closed-form 3-point similarity estimator".  This is the
closed-form least-squares similarity fit for 3 pass points, the complex linear
regression `w ≈ α·z + β` with
`α = Σ conj(zᵢ − z̄)·(wᵢ − w̄) / Σ |zᵢ − z̄|²` and `β = w̄ − α·z̄`;
it fails (returns `none`, the C++ `false`) when the source points are
degenerate (`srcSpread = 0`, i.e. all three coincide). -/
def estimateSimilarityTransform3 (p0 p1 p2 : PassPoint) : Option SimilarityTransform :=
  let sx := (p0.src_coords.x + p1.src_coords.x + p2.src_coords.x) / 3
  let sy := (p0.src_coords.y + p1.src_coords.y + p2.src_coords.y) / 3
  let ux := (p0.dest_coords.x + p1.dest_coords.x + p2.dest_coords.x) / 3
  let uy := (p0.dest_coords.y + p1.dest_coords.y + p2.dest_coords.y) / 3
  let d := srcSpread p0 p1 p2
  if d = 0 then
    none
  else
    let a := ((p0.src_coords.x - sx) * (p0.dest_coords.x - ux)
        + (p0.src_coords.y - sy) * (p0.dest_coords.y - uy)
        + (p1.src_coords.x - sx) * (p1.dest_coords.x - ux)
        + (p1.src_coords.y - sy) * (p1.dest_coords.y - uy)
        + (p2.src_coords.x - sx) * (p2.dest_coords.x - ux)
        + (p2.src_coords.y - sy) * (p2.dest_coords.y - uy)) / d
    let b := ((p0.src_coords.x - sx) * (p0.dest_coords.y - uy)
        - (p0.src_coords.y - sy) * (p0.dest_coords.x - ux)
        + (p1.src_coords.x - sx) * (p1.dest_coords.y - uy)
        - (p1.src_coords.y - sy) * (p1.dest_coords.x - ux)
        + (p2.src_coords.x - sx) * (p2.dest_coords.y - uy)
        - (p2.src_coords.y - sy) * (p2.dest_coords.x - ux)) / d
    some ⟨a, b, ux - (a * sx - b * sy), uy - (b * sx + a * sy)⟩

/-- The georeferencing of a document, as the embedded code paths use it: a
validity flag (the spec's "may be valid (present) or absent") and the map
reference point `getMapRefPoint`. -/
structure Georeferencing where
  valid : Bool
  mapRefPoint : MapCoordF

/-- The state of the host `Map` that `calculateTransformation` reads: its
georeferencing validity and the mapping
`map->getGeoreferencing().toMapCoordF(&georef, ·, &ok)` from the foreign
document's map coordinates into host map coordinates (`Georeferencing` is
outside the repository slice; `none` models `ok == false`). -/
structure HostGeoref where
  valid : Bool
  toMapCoordF : MapCoordF → Option MapCoordF

/-- `TemplateMap::calculateTransformation` (template_map.cpp lines 228-254),
acting on the stored `transform` of the template.

Line by line: `src_origin` is the foreign georeferencing's reference point
(lines 230-231); the 3 pass points are `src_origin`, `src_origin + (128, 0)`
("128 mm off horizontally") and `src_origin + (0, 128)` ("128 mm off
vertically"), each destination obtained through the host georeferencing with
an `ok` flag (lines 237-242); if `ok0 && ok1 && ok2` and the fit succeeds, the
stored transform is replaced by the fit result (lines 243-248), otherwise
everything is left unchanged and only a debug message is printed
(lines 249-253). -/
def calculateTransformation (host : HostGeoref) (georef : Georeferencing)
    (transform : SimilarityTransform) : SimilarityTransform :=
  let src_origin := georef.mapRefPoint
  let src1 := src_origin + MapCoordF.mk 128 0
  let src2 := src_origin + MapCoordF.mk 0 128
  match host.toMapCoordF src_origin, host.toMapCoordF src1, host.toMapCoordF src2 with
  | some dest0, some dest1, some dest2 =>
      match estimateSimilarityTransform3 ⟨src_origin, dest0⟩ ⟨src1, dest1⟩ ⟨src2, dest2⟩ with
      | some q_transform => q_transform
      | none => transform
  | _, _, _ => transform

/-- The pass points `calculateTransformation` constructs (same lines), kept as
a list to state that there are exactly 3 of them. -/
def calcPassPoints (host : HostGeoref) (georef : Georeferencing) :
    List (MapCoordF × Option MapCoordF) :=
  let src_origin := georef.mapRefPoint
  [ (src_origin, host.toMapCoordF src_origin),
    (src_origin + MapCoordF.mk 128 0, host.toMapCoordF (src_origin + MapCoordF.mk 128 0)),
    (src_origin + MapCoordF.mk 0 128, host.toMapCoordF (src_origin + MapCoordF.mk 0 128)) ]

/-- The paint device of the `QPainter` (`painter->device()`), as
`drawTemplate` reads it: its physical and logical horizontal DPI. -/
structure QPaintDevice where
  physicalDpiX : Int
  logicalDpiX : Int
  deriving DecidableEq, Repr

/-- The effective-scale resolution of `TemplateMap::drawTemplate`
(template_map.cpp lines 164-179).

`auto scaling = scale;` then: if `on_screen`,
`scaling = Util::mmToPixelPhysical(scale)` (line 170; `mmToPixelPhysical`
lives in gui/util_gui, outside the repository slice, and is passed in as the
abstract display-resolution-derived conversion); otherwise
`dpi = physicalDpiX(); if (!dpi) dpi = logicalDpiX(); if (dpi > 0)
scaling *= dpi / 25.4;` (lines 174-178). -/
def drawTemplateScaling (mmToPixelPhysical : ℚ → ℚ) (device : QPaintDevice)
    (scale : ℚ) (on_screen : Bool) : ℚ :=
  if on_screen then
    mmToPixelPhysical scale
  else
    let dpi := device.physicalDpiX
    let dpi := if dpi = 0 then device.logicalDpiX else dpi
    if dpi > 0 then scale * ((dpi : ℚ) / (254 / 10)) else scale

/-- A concrete host-georeferencing fixture whose mapping is the reflection
`(x, y) ↦ (x, −y)` on the three pass-point sources based at the origin:
a mapping that is realisable by a host/foreign georeferencing pair but is not
orientation-preserving. -/
def hostReflection : HostGeoref where
  valid := true
  toMapCoordF := fun p =>
    if p = ⟨0, 0⟩ then some ⟨0, 0⟩
    else if p = ⟨128, 0⟩ then some ⟨128, 0⟩
    else if p = ⟨0, 128⟩ then some ⟨0, -128⟩
    else none

section Theorems

theorem MapCoordF.add_def (p q : MapCoordF) : p + q = ⟨p.x + q.x, p.y + q.y⟩ := rfl

theorem removeAll_append_self (l : List String) (s : String) :
    removeAll (l ++ [s]) s = removeAll l s := by
  simp [removeAll, List.filter_append]

theorem removeAll_of_not_contains (l : List String) (s : String)
    (h : ¬ l.contains s) : removeAll l s = l := by
  refine List.filter_eq_self.mpr fun a ha => ?_
  simp only [ne_eq, decide_eq_true_eq]
  rintro rfl
  exact h (List.contains_iff_exists_mem_beq.mpr ⟨a, ha, by simp⟩)

theorem deleteTemplatesLoop_eq_empty (k : Nat) :
    ∀ m : Map, m.templates.length = k →
      deleteTemplatesLoop m k = { m with templates := [] } := by
  induction k with
  | zero =>
    intro m h
    obtain ⟨ts, c⟩ := m
    obtain rfl : ts = [] := List.length_eq_zero.mp h
    rfl
  | succ i ih =>
    intro m h
    rw [deleteTemplatesLoop]
    have hlen : (m.deleteTemplate i).templates.length = i := by
      simp only [Map.deleteTemplate]
      have := List.length_eraseIdx_add_one (l := m.templates) (i := i) (by omega)
      omega
    rw [ih _ hlen]
    simp [Map.deleteTemplate]

/-- C1: for every call to `loadTemplateFileImpl` whose path is not already in
the recursion guard, the guard is restored (the path removed again) before the
call returns, on every exit path — import success, import failure with or
without importer, configuring or not — so the path is not in the guard
afterwards, and a top-level call (empty guard) leaves the guard empty. -/
theorem loadTemplateFileImpl_releases_guard (configuring : Bool)
    (st : TemplateMapState) (locked : List String) (env : LoadEnv)
    (h : ¬ locked.contains st.template_path) :
    (loadTemplateFileImpl configuring st locked env).locked_maps = locked ∧
    ¬ (loadTemplateFileImpl configuring st locked env).locked_maps.contains
        st.template_path ∧
    (locked = [] → (loadTemplateFileImpl configuring st locked env).locked_maps = []) := by
  have hrem : removeAll (locked ++ [st.template_path]) st.template_path = locked := by
    rw [removeAll_append_self, removeAll_of_not_contains _ _ h]
  have hmain : (loadTemplateFileImpl configuring st locked env).locked_maps = locked := by
    unfold loadTemplateFileImpl
    rw [if_neg h]
    cases henv : env.importerOpt with
    | none => cases configuring <;> simp [newTemplateValid, henv, hrem]
    | some imp =>
        cases himp : imp.importOk <;> cases configuring <;>
          simp [newTemplateValid, henv, himp, hrem]
  exact ⟨hmain, by rw [hmain]; exact h, fun he => by rw [hmain, he]⟩

/-- Witness for C1 at a concrete input: empty guard, no importer. -/
theorem loadTemplateFileImpl_releases_guard_witness :
    ¬ (([] : List String).contains "a") ∧
    (loadTemplateFileImpl true ⟨"a", none, none⟩ [] ⟨none, ⟨[], 0⟩⟩).locked_maps = [] := by
  refine ⟨by decide, ?_⟩
  exact (loadTemplateFileImpl_releases_guard true ⟨"a", none, none⟩ []
    ⟨none, ⟨[], 0⟩⟩ (by decide)).1

/-- C2: for every path already present in the recursion guard,
`loadTemplateFileImpl` returns `true` as a pure no-op: the guard, the whole
overlay state (document and error string) are unchanged and the importer is
not invoked. -/
theorem loadTemplateFileImpl_locked_noop (configuring : Bool)
    (st : TemplateMapState) (locked : List String) (env : LoadEnv)
    (h : locked.contains st.template_path) :
    loadTemplateFileImpl configuring st locked env =
      { ret := true, locked_maps := locked, state := st,
        importerInvoked := false, oobRead := false } := by
  unfold loadTemplateFileImpl
  rw [if_pos h]

/-- Witness for C2 at a concrete input: the path is in the guard. -/
theorem loadTemplateFileImpl_locked_noop_witness :
    ((["a"] : List String).contains "a") = true ∧
    loadTemplateFileImpl true ⟨"a", none, none⟩ ["a"] ⟨some ⟨true, []⟩, ⟨[], 0⟩⟩ =
      { ret := true, locked_maps := ["a"], state := ⟨"a", none, none⟩,
        importerInvoked := false, oobRead := false } :=
  ⟨by decide, loadTemplateFileImpl_locked_noop true ⟨"a", none, none⟩ ["a"]
    ⟨some ⟨true, []⟩, ⟨[], 0⟩⟩ (by decide)⟩

/-- C7: on every successful import, the stored document is the imported
document with its template list emptied — every contained template is deleted
before the document is stored, and nothing else of the document is changed
(the deletion loop touches only the document's own template list, one level of
de-nesting). -/
theorem loadTemplateFileImpl_strips_templates (configuring : Bool)
    (st : TemplateMapState) (locked : List String) (env : LoadEnv)
    (hguard : ¬ locked.contains st.template_path)
    (hvalid : newTemplateValid env = true) :
    (loadTemplateFileImpl configuring st locked env).state.template_map =
      some { env.imported with templates := [] } := by
  unfold loadTemplateFileImpl
  rw [if_neg hguard]
  simp only [hvalid, if_true]
  rw [deleteTemplatesLoop_eq_empty _ _ rfl]

/-- Witness for C7 at a concrete input: a document with one nested template. -/
theorem loadTemplateFileImpl_strips_templates_witness :
    newTemplateValid ⟨some ⟨true, []⟩, ⟨[⟨7, [3]⟩], 5⟩⟩ = true ∧
    (loadTemplateFileImpl true ⟨"a", none, none⟩ []
        ⟨some ⟨true, []⟩, ⟨[⟨7, [3]⟩], 5⟩⟩).state.template_map = some ⟨[], 5⟩ := by
  refine ⟨rfl, ?_⟩
  exact loadTemplateFileImpl_strips_templates true ⟨"a", none, none⟩ []
    ⟨some ⟨true, []⟩, ⟨[⟨7, [3]⟩], 5⟩⟩ (by decide) rfl

/-- C5 counterexample: `loadTemplateFileImpl` called with `configuring = false`
(as `TemplateMap::duplicate` does), importer present, import failing, one
warning `"w"` emitted: the call returns `false` but no error string is
recorded (`error_string` stays `none`), contradicting the claim that every
failing Load records a retrievable error string. -/
theorem loadTemplateFileImpl_failure_no_error_recorded :
    (loadTemplateFileImpl false ⟨"a", none, none⟩ []
        ⟨some ⟨false, ["w"]⟩, ⟨[], 0⟩⟩).ret = false ∧
    (loadTemplateFileImpl false ⟨"a", none, none⟩ []
        ⟨some ⟨false, ["w"]⟩, ⟨[], 0⟩⟩).state.error_string = none := by
  decide

/-- C5 (amended): for every `loadTemplateFileImpl` whose import fails, the
call returns `false` and leaves `template_map` unchanged (an unloaded overlay
stays unloaded); the error string is recorded only when the call is made in
configuring mode — then it is the importer's last warning when an importer
exists, or the generic cannot-load message when none does — and is left
unchanged in non-configuring mode. -/
theorem loadTemplateFileImpl_failure_behaviour (configuring : Bool)
    (st : TemplateMapState) (locked : List String) (env : LoadEnv)
    (hguard : ¬ locked.contains st.template_path)
    (hfail : newTemplateValid env = false) :
    (loadTemplateFileImpl configuring st locked env).ret = false ∧
    (loadTemplateFileImpl configuring st locked env).state.template_map =
      st.template_map ∧
    (configuring = true →
      (loadTemplateFileImpl configuring st locked env).state.error_string =
        (match env.importerOpt with
          | some imp => imp.warnings.getLast?
          | none => some cannotLoadMessage)) ∧
    (configuring = false →
      (loadTemplateFileImpl configuring st locked env).state.error_string =
        st.error_string) := by
  unfold loadTemplateFileImpl
  rw [if_neg hguard]
  cases henv : env.importerOpt with
  | none => cases configuring <;> simp_all [newTemplateValid]
  | some imp =>
      simp only [newTemplateValid, henv] at hfail
      cases configuring <;> simp_all [newTemplateValid]

/-- Witness for C5 (amended) at a concrete input: no importer, configuring
mode; the generic message is recorded. -/
theorem loadTemplateFileImpl_failure_behaviour_witness :
    ¬ (([] : List String).contains "a") ∧
    newTemplateValid ⟨none, ⟨[], 0⟩⟩ = false ∧
    (loadTemplateFileImpl true ⟨"a", none, none⟩ [] ⟨none, ⟨[], 0⟩⟩).ret = false := by
  refine ⟨by decide, rfl, ?_⟩
  exact (loadTemplateFileImpl_failure_behaviour true ⟨"a", none, none⟩ []
    ⟨none, ⟨[], 0⟩⟩ (by decide) rfl).1

/-- C10: in configuring mode, when the import fails and an importer exists,
the error-reporting branch reads the last element of the importer's warning
list; that read is in bounds exactly when the warning list is non-empty — for
a failing importer with an empty warning list the read is out of bounds
(`warnings().back()` on an empty vector). -/
theorem loadTemplateFileImpl_back_read_bounds (st : TemplateMapState)
    (locked : List String) (env : LoadEnv) (imp : Importer)
    (hguard : ¬ locked.contains st.template_path)
    (himp : env.importerOpt = some imp) (hfail : imp.importOk = false) :
    ((loadTemplateFileImpl true st locked env).oobRead = true ↔ imp.warnings = []) ∧
    (imp.warnings ≠ [] →
      (loadTemplateFileImpl true st locked env).state.error_string =
        imp.warnings.getLast?) := by
  unfold loadTemplateFileImpl
  rw [if_neg hguard]
  simp [newTemplateValid, himp, hfail, List.isEmpty_iff]

/-- Witness for C10 at a concrete input: failing importer with an empty
warning list; the out-of-bounds read happens. -/
theorem loadTemplateFileImpl_back_read_bounds_witness :
    ¬ (([] : List String).contains "a") ∧
    (loadTemplateFileImpl true ⟨"a", none, none⟩ []
        ⟨some ⟨false, []⟩, ⟨[], 0⟩⟩).oobRead = true := by
  refine ⟨by decide, ?_⟩
  exact (loadTemplateFileImpl_back_read_bounds ⟨"a", none, none⟩ []
    ⟨some ⟨false, []⟩, ⟨[], 0⟩⟩ ⟨false, []⟩ (by decide) rfl rfl).1.mpr rfl

theorem srcSpread_offsets (o w0 w1 w2 : MapCoordF) :
    srcSpread ⟨o, w0⟩ ⟨o + ⟨128, 0⟩, w1⟩ ⟨o + ⟨0, 128⟩, w2⟩ = 65536 / 3 := by
  obtain ⟨ox, oy⟩ := o
  simp only [srcSpread, MapCoordF.add_def]
  ring

theorem estimate3_succeeds (o w0 w1 w2 : MapCoordF) :
    ∃ q, estimateSimilarityTransform3 ⟨o, w0⟩ ⟨o + ⟨128, 0⟩, w1⟩
      ⟨o + ⟨0, 128⟩, w2⟩ = some q := by
  unfold estimateSimilarityTransform3
  rw [srcSpread_offsets]
  norm_num

theorem estimate3_of_similarity (o : MapCoordF) (S : SimilarityTransform) :
    estimateSimilarityTransform3 ⟨o, S.apply o⟩
      ⟨o + ⟨128, 0⟩, S.apply (o + ⟨128, 0⟩)⟩
      ⟨o + ⟨0, 128⟩, S.apply (o + ⟨0, 128⟩)⟩ = some S := by
  unfold estimateSimilarityTransform3
  rw [srcSpread_offsets]
  obtain ⟨ox, oy⟩ := o
  obtain ⟨a, b, dx, dy⟩ := S
  simp only [MapCoordF.add_def, SimilarityTransform.apply]
  norm_num
  refine ⟨?_, ?_, ?_, ?_⟩ <;> ring

theorem load_template_map_of_invalid (configuring : Bool)
    (st : TemplateMapState) (locked : List String) (env : LoadEnv)
    (hfail : newTemplateValid env = false) :
    (loadTemplateFileImpl configuring st locked env).state.template_map =
      st.template_map := by
  unfold loadTemplateFileImpl
  by_cases hg : locked.contains st.template_path
  · rw [if_pos hg]
  · rw [if_neg hg]
    cases henv : env.importerOpt with
    | none => cases configuring <;> simp_all [newTemplateValid]
    | some imp =>
        simp only [newTemplateValid, henv] at hfail
        cases configuring <;> simp_all [newTemplateValid]

/-- C3: when both the foreign document and the host map have a valid
georeferencing and all three host-georeferencing mappings succeed,
`calculateTransformation` constructs exactly 3 pass points — the foreign
reference point, that point offset by 128 along x, and by 128 along y — maps
each through the host georeferencing, and stores the similarity fit (uniform
scale, rotation and translation, no shear, by the `SimilarityTransform` shape)
through the 3 pairs, which for these axis-aligned offsets always exists. -/
theorem calculateTransformation_pass_points (host : HostGeoref)
    (georef : Georeferencing) (t : SimilarityTransform) (d0 d1 d2 : MapCoordF)
    (hhost : host.valid = true) (hgeo : georef.valid = true)
    (h0 : host.toMapCoordF georef.mapRefPoint = some d0)
    (h1 : host.toMapCoordF (georef.mapRefPoint + ⟨128, 0⟩) = some d1)
    (h2 : host.toMapCoordF (georef.mapRefPoint + ⟨0, 128⟩) = some d2) :
    calcPassPoints host georef =
      [(georef.mapRefPoint, some d0),
       (georef.mapRefPoint + ⟨128, 0⟩, some d1),
       (georef.mapRefPoint + ⟨0, 128⟩, some d2)] ∧
    (calcPassPoints host georef).length = 3 ∧
    ∃ q, estimateSimilarityTransform3 ⟨georef.mapRefPoint, d0⟩
        ⟨georef.mapRefPoint + ⟨128, 0⟩, d1⟩
        ⟨georef.mapRefPoint + ⟨0, 128⟩, d2⟩ = some q ∧
      calculateTransformation host georef t = q := by
  refine ⟨by simp [calcPassPoints, h0, h1, h2], rfl, ?_⟩
  obtain ⟨q, hq⟩ := estimate3_succeeds georef.mapRefPoint d0 d1 d2
  exact ⟨q, hq, by simp [calculateTransformation, h0, h1, h2, hq]⟩

/-- Witness for C3 at a concrete input: the identity host mapping. -/
theorem calculateTransformation_pass_points_witness :
    (⟨true, fun p => some p⟩ : HostGeoref).toMapCoordF ⟨0, 0⟩ = some ⟨0, 0⟩ ∧
    (calcPassPoints ⟨true, fun p => some p⟩ ⟨true, ⟨0, 0⟩⟩).length = 3 :=
  ⟨rfl, (calculateTransformation_pass_points ⟨true, fun p => some p⟩
    ⟨true, ⟨0, 0⟩⟩ ⟨1, 0, 0, 0⟩ ⟨0, 0⟩ ((⟨0, 0⟩ : MapCoordF) + ⟨128, 0⟩)
    ((⟨0, 0⟩ : MapCoordF) + ⟨0, 128⟩) rfl rfl rfl rfl rfl).2.1⟩

/-- C4: whenever any of the 3 point mappings fails (`ok` flag false) or the
similarity fit fails, `calculateTransformation` leaves the stored transform
exactly as it was — no partial update — and, being a total function, returns
without crashing. -/
theorem calculateTransformation_failure_no_update (host : HostGeoref)
    (georef : Georeferencing) (t : SimilarityTransform)
    (h : host.toMapCoordF georef.mapRefPoint = none
      ∨ host.toMapCoordF (georef.mapRefPoint + ⟨128, 0⟩) = none
      ∨ host.toMapCoordF (georef.mapRefPoint + ⟨0, 128⟩) = none
      ∨ ∀ d0 d1 d2 : MapCoordF,
          host.toMapCoordF georef.mapRefPoint = some d0 →
          host.toMapCoordF (georef.mapRefPoint + ⟨128, 0⟩) = some d1 →
          host.toMapCoordF (georef.mapRefPoint + ⟨0, 128⟩) = some d2 →
          estimateSimilarityTransform3 ⟨georef.mapRefPoint, d0⟩
            ⟨georef.mapRefPoint + ⟨128, 0⟩, d1⟩
            ⟨georef.mapRefPoint + ⟨0, 128⟩, d2⟩ = none) :
    calculateTransformation host georef t = t := by
  rcases h with h | h | h | h
  · simp [calculateTransformation, h]
  · simp [calculateTransformation, h]
  · simp [calculateTransformation, h]
  · cases h0 : host.toMapCoordF georef.mapRefPoint with
    | none => simp [calculateTransformation, h0]
    | some d0 =>
        cases h1 : host.toMapCoordF (georef.mapRefPoint + ⟨128, 0⟩) with
        | none => simp [calculateTransformation, h0, h1]
        | some d1 =>
            cases h2 : host.toMapCoordF (georef.mapRefPoint + ⟨0, 128⟩) with
            | none => simp [calculateTransformation, h0, h1, h2]
            | some d2 =>
                simp [calculateTransformation, h0, h1, h2, h d0 d1 d2 h0 h1 h2]

/-- Witness for C4 at a concrete input: every mapping fails. -/
theorem calculateTransformation_failure_no_update_witness :
    (⟨true, fun _ => none⟩ : HostGeoref).toMapCoordF ⟨0, 0⟩ = none ∧
    calculateTransformation ⟨true, fun _ => none⟩ ⟨true, ⟨0, 0⟩⟩ ⟨1, 0, 2, 3⟩ =
      ⟨1, 0, 2, 3⟩ :=
  ⟨rfl, calculateTransformation_failure_no_update ⟨true, fun _ => none⟩
    ⟨true, ⟨0, 0⟩⟩ ⟨1, 0, 2, 3⟩ (Or.inl rfl)⟩

/-- C6 counterexample: both georeferencings are valid, all 3 pass-point
mappings succeed (the host mapping is the reflection `(x, y) ↦ (x, −y)` on
the 3 sources) and the fit succeeds, yet the resulting transform maps the
foreign reference point `(0, 0)` to `(64, −64)`, not to its mapped host-space
counterpart `(0, 0)` — a direct (rotation-only) similarity cannot reproduce a
reflection, and the least-squares fit leaves a large residual at the
reference point. -/
theorem calculateTransformation_refpoint_mismatch :
    hostReflection.valid = true ∧
    hostReflection.toMapCoordF ⟨0, 0⟩ = some ⟨0, 0⟩ ∧
    hostReflection.toMapCoordF ((⟨0, 0⟩ : MapCoordF) + ⟨128, 0⟩) = some ⟨128, 0⟩ ∧
    hostReflection.toMapCoordF ((⟨0, 0⟩ : MapCoordF) + ⟨0, 128⟩) = some ⟨0, -128⟩ ∧
    estimateSimilarityTransform3 ⟨⟨0, 0⟩, ⟨0, 0⟩⟩
      ⟨(⟨0, 0⟩ : MapCoordF) + ⟨128, 0⟩, ⟨128, 0⟩⟩
      ⟨(⟨0, 0⟩ : MapCoordF) + ⟨0, 128⟩, ⟨0, -128⟩⟩ = some ⟨0, 1/2, 64, -64⟩ ∧
    calculateTransformation hostReflection ⟨true, ⟨0, 0⟩⟩ ⟨1, 0, 0, 0⟩ =
      ⟨0, 1/2, 64, -64⟩ ∧
    (calculateTransformation hostReflection ⟨true, ⟨0, 0⟩⟩ ⟨1, 0, 0, 0⟩).apply
      ⟨0, 0⟩ ≠ ⟨0, 0⟩ := by
  norm_num [hostReflection, calculateTransformation, estimateSimilarityTransform3,
    srcSpread, SimilarityTransform.apply, MapCoordF.add_def, MapCoordF.mk.injEq]

/-- C6 (amended): if both georeferencings are valid, all 3 pass-point mappings
succeed, and additionally the 3 destinations are the images of the 3 sources
under one similarity transform (as when the two georeferencings are related by
a similarity), then the fit succeeds, recovers exactly that similarity, and
the stored transform maps the foreign reference point exactly to its mapped
host-space counterpart. -/
theorem calculateTransformation_maps_refpoint (host : HostGeoref)
    (georef : Georeferencing) (t : SimilarityTransform) (S : SimilarityTransform)
    (hhost : host.valid = true) (hgeo : georef.valid = true)
    (h0 : host.toMapCoordF georef.mapRefPoint = some (S.apply georef.mapRefPoint))
    (h1 : host.toMapCoordF (georef.mapRefPoint + ⟨128, 0⟩) =
      some (S.apply (georef.mapRefPoint + ⟨128, 0⟩)))
    (h2 : host.toMapCoordF (georef.mapRefPoint + ⟨0, 128⟩) =
      some (S.apply (georef.mapRefPoint + ⟨0, 128⟩))) :
    calculateTransformation host georef t = S ∧
    (calculateTransformation host georef t).apply georef.mapRefPoint =
      S.apply georef.mapRefPoint := by
  have hS := estimate3_of_similarity georef.mapRefPoint S
  have hc : calculateTransformation host georef t = S := by
    simp [calculateTransformation, h0, h1, h2, hS]
  exact ⟨hc, by rw [hc]⟩

/-- Witness for C6 (amended) at a concrete input: the identity host mapping
realises the identity similarity. -/
theorem calculateTransformation_maps_refpoint_witness :
    (⟨true, fun p => some p⟩ : HostGeoref).toMapCoordF ⟨0, 0⟩ =
      some ((⟨1, 0, 0, 0⟩ : SimilarityTransform).apply ⟨0, 0⟩) ∧
    calculateTransformation ⟨true, fun p => some p⟩ ⟨true, ⟨0, 0⟩⟩ ⟨2, 0, 0, 0⟩ =
      ⟨1, 0, 0, 0⟩ := by
  refine ⟨by norm_num [SimilarityTransform.apply], ?_⟩
  exact (calculateTransformation_maps_refpoint ⟨true, fun p => some p⟩
    ⟨true, ⟨0, 0⟩⟩ ⟨2, 0, 0, 0⟩ ⟨1, 0, 0, 0⟩ rfl rfl
    (by norm_num [SimilarityTransform.apply])
    (by norm_num [SimilarityTransform.apply, MapCoordF.add_def])
    (by norm_num [SimilarityTransform.apply, MapCoordF.add_def])).1

/-- C8: in the scale resolution of `drawTemplate`, `on_screen = true` yields
the display-resolution-derived physical-pixel scale of the logical scale;
`on_screen = false` multiplies the logical scale by `dpi / 25.4`, where `dpi`
is the device's physical DPI falling back to its logical DPI when the
physical DPI is 0, and when the resulting dpi is 0 (or not a positive value)
the scale is the input logical scale unmodified. -/
theorem drawTemplate_scaling_resolution (mmToPixelPhysical : ℚ → ℚ)
    (device : QPaintDevice) (scale : ℚ) :
    drawTemplateScaling mmToPixelPhysical device scale true =
      mmToPixelPhysical scale ∧
    (0 < (if device.physicalDpiX = 0 then device.logicalDpiX else device.physicalDpiX) →
      drawTemplateScaling mmToPixelPhysical device scale false =
        scale * (((if device.physicalDpiX = 0 then device.logicalDpiX
          else device.physicalDpiX) : ℚ) / (254 / 10))) ∧
    ((if device.physicalDpiX = 0 then device.logicalDpiX else device.physicalDpiX) ≤ 0 →
      drawTemplateScaling mmToPixelPhysical device scale false = scale) := by
  refine ⟨rfl, fun h => ?_, fun h => ?_⟩
  · simp only [drawTemplateScaling, Bool.false_eq_true, if_false]
    rw [if_pos h, apply_ite (fun z : ℤ => (z : ℚ))]
  · simp only [drawTemplateScaling, Bool.false_eq_true, if_false]
    rw [if_neg (not_lt.mpr h)]

/-- Witness for C8 at a concrete input: a device with physical DPI 0 and
logical DPI 0 (DPI unavailable) leaves the scale unmodified, and a screen
render uses the converter. -/
theorem drawTemplate_scaling_resolution_witness :
    drawTemplateScaling (fun s => 4 * s) ⟨0, 0⟩ 2 false = 2 ∧
    drawTemplateScaling (fun s => 4 * s) ⟨0, 0⟩ 2 true = 8 := by
  refine ⟨?_, ?_⟩
  · exact (drawTemplate_scaling_resolution (fun s => 4 * s) ⟨0, 0⟩ 2).2.2 (by decide)
  · rw [(drawTemplate_scaling_resolution (fun s => 4 * s) ⟨0, 0⟩ 2).1]
    norm_num

/-- C9: `getTemplateExtent` returns the empty rectangle whenever no foreign
document is loaded — after `unloadTemplateFileImpl`, and after a failed load
of an unloaded overlay — and otherwise returns the foreign document's content
bounding box `calculateExtent` in foreign-document coordinates. -/
theorem getTemplateExtent_empty_unless_loaded (calculateExtent : Map → QRectF)
    (st : TemplateMapState) (m : Map) (configuring : Bool)
    (locked : List String) (env : LoadEnv)
    (hunloaded : st.template_map = none) (hfail : newTemplateValid env = false) :
    getTemplateExtent calculateExtent none = QRectF.empty ∧
    getTemplateExtent calculateExtent (some m) = calculateExtent m ∧
    getTemplateExtent calculateExtent
      (unloadTemplateFileImpl st).template_map = QRectF.empty ∧
    getTemplateExtent calculateExtent
      (loadTemplateFileImpl configuring st locked env).state.template_map =
        QRectF.empty := by
  refine ⟨rfl, rfl, rfl, ?_⟩
  rw [load_template_map_of_invalid configuring st locked env hfail, hunloaded]
  rfl

/-- Witness for C9 at a concrete input: unload then read the extent. -/
theorem getTemplateExtent_empty_unless_loaded_witness :
    getTemplateExtent (fun _ => ⟨0, 0, 2, 2⟩)
      (unloadTemplateFileImpl ⟨"a", none, none⟩).template_map =
      QRectF.empty :=
  (getTemplateExtent_empty_unless_loaded (fun _ => ⟨0, 0, 2, 2⟩)
    ⟨"a", none, none⟩ ⟨[], 7⟩ true [] ⟨none, ⟨[], 0⟩⟩ rfl rfl).2.2.1

end Theorems

end OpenOrienteering
